import Mathlib

/-!
Shallow embedding of the prayer-time cache-and-scheduling core of a
Telegram prayer-reminder bot (`bot.py`, `dbhelper.py`), together with
theorems settling a list of claims about that code.

Python string primitives (`str.split`, `int()`, two-digit `format`,
slicing) are embedded as executable character-level functions; Python
exceptions are embedded as `Except`/`Option` error values.
-/

/-- Error values standing for the Python exceptions the code can raise.
`exception msg` stands for a generic `Exception(msg)` (the interpolated
suffix of the Python message is dropped). -/
inductive PyErr where
  | valueError
  | indexError
  | attributeError
  | exception (msg : String)
deriving DecidableEq

/-- The decimal digit character for `n < 10` (codepoint `48 + n`). -/
def digitChar (n : Nat) : Char := Char.ofNat (48 + n)

/-- Python `f"{n:02}"` for `n ≤ 99` (the only values the code formats:
hours `0..23` and minutes `0..59` of a `datetime.time`). -/
def fmt2 (n : Nat) : String := String.mk [digitChar (n / 10), digitChar (n % 10)]

/-- Character-level worker for Python `str.split(sep)`. -/
def splitChars (sep : Char) : List Char → List (List Char)
  | [] => [[]]
  | c :: cs =>
    if c = sep then [] :: splitChars sep cs
    else
      match splitChars sep cs with
      | [] => [[c]]
      | l :: ls => (c :: l) :: ls

/-- Python `s.split(sep)` for a single-character separator. -/
def pySplit (s : String) (sep : Char) : List String :=
  (splitChars sep s.data).map String.mk

/-- The value of a decimal digit character, `none` for a non-digit. -/
def digitVal (c : Char) : Option Nat :=
  if 48 ≤ c.toNat ∧ c.toNat ≤ 57 then some (c.toNat - 48) else none

/-- Accumulator worker for `pyInt`. -/
def pyIntAux : List Char → Nat → Option Nat
  | [], acc => some acc
  | c :: cs, acc =>
    match digitVal c with
    | some d => pyIntAux cs (acc * 10 + d)
    | none => none

/-- Python `int(s)` on plain decimal numerals (the shape occurring in the
scraped data); any other string is a `ValueError`, embedded as `none`. -/
def pyInt (s : String) : Option Nat :=
  match s.data with
  | [] => none
  | l => pyIntAux l 0

/-- Python `s[:n]` (by characters). -/
def pyTake (s : String) (n : Nat) : String := String.mk (s.data.take n)

/-- Python `s[n:]` (by characters). -/
def pyDrop (s : String) (n : Nat) : String := String.mk (s.data.drop n)

/-- Minutes from `datetime.min` (0001-01-01 00:00) to 2000-01-01 00:00:
`(730120 - 1) * 1440` (ordinal of 2000-01-01 is 730120). -/
def pyDatetimeBase : Int := 1051371360

/-- Minutes from `datetime.min` to `datetime.max` (9999-12-31 23:59):
`(3652059 - 1) * 1440 + 1439`. -/
def pyDatetimeMax : Int := 5258964959

/-- `shift_time` from bot.py: split on `':'`, parse hour and minute with
`int()`, build `datetime(2000, 1, 1, hour, minute)`, add the delta (the
code only ever passes whole minutes, embedded as `deltaMinutes : Int`),
take `.time()` and format as `f"{hour:02}:{minute:02}"`.  A parse
failure, an hour/minute out of `datetime`'s range, or an overflow past
`datetime.min`/`datetime.max` raises in Python, embedded as `none`. -/
def shift_time (time_str : String) (deltaMinutes : Int) : Option String :=
  match pySplit time_str ':' with
  | p0 :: p1 :: _ =>
    match pyInt p0, pyInt p1 with
    | some hour, some minute =>
      if hour ≤ 23 ∧ minute ≤ 59 then
        let total : Int := pyDatetimeBase + (hour * 60 + minute : Nat) + deltaMinutes
        if 0 ≤ total ∧ total ≤ pyDatetimeMax then
          let t := total.toNat % 1440
          some (fmt2 (t / 60) ++ (":") ++ fmt2 (t % 60))
        else none
      else none
    | _, _ => none
  | _ => none

/-- A time-zone-aware Python `datetime` in the bot's fixed `moscow`
time zone (every `datetime` in the code carries that same zone, so the
zone itself needs no representation). -/
structure Moment where
  year : Nat
  month : Nat
  day : Nat
  hour : Nat
  minute : Nat
  second : Nat
  microsecond : Nat
deriving DecidableEq

/-- Python comparison of two same-zone `datetime` values:
lexicographic on (year, month, day, hour, minute, second, microsecond). -/
def momentLtB (a b : Moment) : Bool :=
  if a.year ≠ b.year then a.year < b.year
  else if a.month ≠ b.month then a.month < b.month
  else if a.day ≠ b.day then a.day < b.day
  else if a.hour ≠ b.hour then a.hour < b.hour
  else if a.minute ≠ b.minute then a.minute < b.minute
  else if a.second ≠ b.second then a.second < b.second
  else decide (a.microsecond < b.microsecond)

/-- Python comparison of two same-zone `datetime.time` values:
lexicographic on (hour, minute, second, microsecond). -/
def todLtB (a b : Nat × Nat × Nat × Nat) : Bool :=
  if a.1 ≠ b.1 then a.1 < b.1
  else if a.2.1 ≠ b.2.1 then a.2.1 < b.2.1
  else if a.2.2.1 ≠ b.2.2.1 then a.2.2.1 < b.2.2.1
  else decide (a.2.2.2 < b.2.2.2)

/-- The `.time()` of a `Moment`, as the tuple compared by `todLtB`. -/
def Moment.tod (m : Moment) : Nat × Nat × Nat × Nat :=
  (m.hour, m.minute, m.second, m.microsecond)

/-- Python `calendar.monthrange(year, month)[1]`: number of days in the
month (proleptic Gregorian leap rule). -/
def days_in_month (year month : Nat) : Nat :=
  if month = 2 then
    if (year % 4 = 0 ∧ year % 100 ≠ 0) ∨ year % 400 = 0 then 29 else 28
  else if month = 4 ∨ month = 6 ∨ month = 9 ∨ month = 11 then 30
  else 31

/-- The module-level `_prayer_cache` dict of bot.py. -/
structure CacheState where
  data : Option (List (List String))
  month : Option Nat
  year : Option Nat
  last_fetched : Option Moment
deriving DecidableEq

/-- The `_prayer_cache` at process start: every field `None`. -/
def emptyCache : CacheState := ⟨none, none, none, none⟩

/-- Outcome of one attempt of the external fetch collaborator
(`requests.get` + `BeautifulSoup` in bot.py), abstracted at the level
the parsing loop consumes: either a raised transport/HTML-level error
(covering connection errors, bad status codes, and `table is None`), or
the list of `<tr>` elements of the found table, each given as the list
of its `<td>` cells' stripped text. -/
inductive FetchResult where
  | failure (msg : String)
  | rows (trs : List (List String))

/-- The row loop of `get_month_times` (bot.py lines 108-122): skip rows
with fewer than 8 cells, take cells `[2:8]`, shift the first time 2
minutes earlier and the fifth 2 minutes later, collect the results.  A
`shift_time` failure raises (embedded as `Except.error`), aborting the
whole loop, exactly as the Python exception propagates to the `except`
clause of `get_month_times`. -/
def processRows : List (List String) → Except PyErr (List (List String))
  | [] => .ok []
  | row :: rest =>
    if row.length < 8 then processRows rest
    else
      let tmp := (row.drop 2).take 6
      if tmp.length ≠ 6 then processRows rest
      else
        match shift_time (tmp.getD 0 ("")) (-2) with
        | none => .error .valueError
        | some fajr =>
          match shift_time (tmp.getD 4 ("")) 2 with
          | none => .error .valueError
          | some maghrib =>
            match processRows rest with
            | .error e => .error e
            | .ok prayers => .ok (((tmp.set 0 fajr).set 4 maghrib) :: prayers)

/-- `np.array(prayers).T.tolist()` for the rectangular `prayers` list
(every row has exactly 6 entries): the 6 kind-rows of the cached table. -/
def transposeT (l : List (List String)) : List (List String) :=
  (List.range 6).map fun i => l.map fun row => row.getD i ("")

/-- The whole `try` block of `get_month_times`: the fetch plus the row
loop plus the zero-rows check, as one `Except` value. -/
def refreshAttempt (fetch : FetchResult) : Except PyErr (List (List String)) :=
  match fetch with
  | .failure msg => .error (.exception msg)
  | .rows trs =>
    match processRows (trs.drop 1) with
    | .error e => .error e
    | .ok prayers =>
      if prayers.length = 0 then .error (.exception ("No valid prayer time rows found"))
      else .ok prayers

/-- `get_month_times` from bot.py.  Returns the result (the served
table, or the propagated exception), the updated `_prayer_cache`, and
whether a fetch was attempted.  `now` is `datetime.now(moscow)`; the
fetch collaborator's outcome is the explicit `fetch` argument. -/
def get_month_times (st : CacheState) (now : Moment) (fetch : FetchResult) :
    Except PyErr (List (List String)) × CacheState × Bool :=
  if st.data = none ∨ st.month ≠ some now.month ∨ st.year ≠ some now.year then
    match refreshAttempt fetch with
    | .ok prayers =>
      let newData := transposeT prayers
      (.ok newData, ⟨some newData, some now.month, some now.year, some now⟩, true)
    | .error _ =>
      match st.data with
      | some d => (.ok d, st, true)
      | none =>
        (.error (.exception ("Unable to fetch prayer times and no cache available")), st, true)
  else
    (.ok (st.data.getD []), st, false)

/-- The `prayer_names` list of bot.py. -/
def prayer_names : List String :=
  [("Fajr"), ("Sunrise"), ("Dhuhr"), ("Asr"), ("Maghrib"), ("Isha")]

/-- What a scheduled job does: the daily `register_todays_prayers`
recurrence created by `j.run_daily`, or a one-shot `remind_next_prayer`
created by `j.run_once` for a named prayer. -/
inductive JobKind where
  | daily
  | once (prayerName : String)
deriving DecidableEq

/-- A `telegram.ext` job object as the code uses it: its identity
(`id`, distinguishing distinct Python objects), its callback and
context (`kind`, `user`), its firing time of day, and whether its
`schedule_removal()` call succeeds (`cancelSucceeds = false` embeds a
job whose removal raises, e.g. one already dead). -/
structure Job where
  id : Nat
  user : Nat
  kind : JobKind
  fireTod : Nat × Nat × Nat × Nat
  cancelSucceeds : Bool
deriving DecidableEq

/-- The module-level `_user_jobs` dict of bot.py, keyed by `str(user_id)`
(embedded as the numeric id, since `str` is injective on ids). -/
def UserJobs := Nat → Option (List Job)

/-- Pointwise update of a `_user_jobs` entry (`_user_jobs[k] = v` /
`del _user_jobs[k]` for `v = none`). -/
def UserJobs.set (m : UserJobs) (k : Nat) (v : Option (List Job)) : UserJobs :=
  fun k' => if k' = k then v else m k'

/-- The `for job in jobs_list[:]` loop of `cancel_user_jobs`: iterate
the snapshot, call `schedule_removal()` on each job, and on success
remove it from the live list; a raising removal is caught and only
logged.  Returns the final live list together with the list of jobs on
which removal was attempted (the per-job log lines). -/
def cancelLoopAux : List Job → List Job → List Job → List Job × List Job
  | [], cur, attempted => (cur, attempted)
  | job :: rest, cur, attempted =>
    if job.cancelSucceeds then cancelLoopAux rest (cur.erase job) (attempted ++ [job])
    else cancelLoopAux rest cur (attempted ++ [job])

/-- `cancel_user_jobs` from bot.py: no-op when the user has no entry;
otherwise run the cancellation loop over a snapshot of the user's job
list and delete the entry if the live list ended up empty. -/
def cancel_user_jobs (m : UserJobs) (user_id : Nat) : UserJobs :=
  match m user_id with
  | none => m
  | some jobs_list =>
    let remaining := (cancelLoopAux jobs_list jobs_list []).1
    if remaining = [] then m.set user_id none
    else m.set user_id (some remaining)

/-- The `User` dataclass of dbhelper.py. -/
structure PyUser where
  id : Nat
  active : Bool
deriving DecidableEq

/-- The Firestore `users` collection of dbhelper.py, as the map from
user id to the stored `active` flag (`none` = no document). -/
def UserStore := Nat → Option Bool

/-- `DBHelper.get_user`: `None` if the document does not exist, else
`User(user_id, active)`. -/
def get_user (db : UserStore) (user_id : Nat) : Option PyUser :=
  match db user_id with
  | none => none
  | some a => some ⟨user_id, a⟩

/-- `DBHelper.add_user`: create the document with `active = True`. -/
def add_user (db : UserStore) (user_id : Nat) : UserStore :=
  fun k => if k = user_id then some true else db k

/-- `DBHelper.set_active`. -/
def set_active (db : UserStore) (user_id : Nat) (active : Bool) : UserStore :=
  fun k => if k = user_id then some active else db k

/-- The mutable process state the handlers of bot.py touch: the user
store, the prayer cache, the per-user job dict, a counter producing
fresh job object identities, and the log of messages handed to
`context.bot.send_message` as `(chat_id, text)` pairs. -/
structure BotState where
  db : UserStore
  cache : CacheState
  userJobs : UserJobs
  nextJobId : Nat
  sent : List (Nat × String)

/-- The two lines `timestamp = [int(x) for x in prayer_time.split(':')]`
and `timestamp = time(*timestamp, tzinfo=moscow)` of
`register_todays_prayers`: parse every `':'`-separated field with
`int()` and build a `datetime.time`, which accepts 1 to 4 positional
arguments and validates their ranges (more than 4 fields is a
`TypeError`, collapsed into `valueError` here). -/
def parsePrayerTime (s : String) : Except PyErr (Nat × Nat × Nat × Nat) :=
  match (pySplit s ':').mapM pyInt with
  | none => .error .valueError
  | some [h] => if h ≤ 23 then .ok (h, 0, 0, 0) else .error .valueError
  | some [h, m] => if h ≤ 23 ∧ m ≤ 59 then .ok (h, m, 0, 0) else .error .valueError
  | some [h, m, sec] =>
    if h ≤ 23 ∧ m ≤ 59 ∧ sec ≤ 59 then .ok (h, m, sec, 0) else .error .valueError
  | some [h, m, sec, us] =>
    if h ≤ 23 ∧ m ≤ 59 ∧ sec ≤ 59 ∧ us ≤ 999999 then .ok (h, m, sec, us)
    else .error .valueError
  | some _ => .error .valueError

/-- The `for name, prayer_time in zip(prayer_names, prayer_times)` loop
of `register_todays_prayers`: index each kind-row at `today` (an
out-of-range index raises `IndexError`), parse the entry, skip it when
its time is strictly earlier than `now.time()`, otherwise create a
one-shot job.  Returns the created jobs in order together with the next
fresh job identity. -/
def registerLoop (uid : Nat) (nowTod : Nat × Nat × Nat × Nat) (today : Nat) (nid : Nat) :
    List (String × List String) → Except PyErr (List Job × Nat)
  | [] => .ok ([], nid)
  | (name, row) :: rest =>
    match row.get? today with
    | none => .error .indexError
    | some ptime =>
      match parsePrayerTime ptime with
      | .error e => .error e
      | .ok ts =>
        if todLtB ts nowTod then registerLoop uid nowTod today nid rest
        else
          match registerLoop uid nowTod today (nid + 1) rest with
          | .error e => .error e
          | .ok (jobs, nid') =>
            .ok (⟨nid, uid, .once name, ts, true⟩ :: jobs, nid')

/-- `register_todays_prayers` from bot.py.  `uid` is the job context's
`chat_id`; `now` is `datetime.now(moscow)` (read twice in the source
within the same run); `fetch` is the outcome the external source would
give if `get_month_times` fetches. -/
def register_todays_prayers (st : BotState) (uid : Nat) (now : Moment) (fetch : FetchResult) :
    Except PyErr BotState :=
  match get_user st.db uid with
  | none => .error .attributeError
  | some user =>
    if !user.active then .ok st
    else
      let uj1 := if (st.userJobs uid).isSome then st.userJobs
                 else st.userJobs.set uid (some [])
      match get_month_times st.cache now fetch with
      | (.error e, _, _) => .error e
      | (.ok prayer_times, cache', _) =>
        let today := now.day - 1
        match registerLoop uid now.tod today st.nextJobId (prayer_names.zip prayer_times) with
        | .error e => .error e
        | .ok (newJobs, nid') =>
          .ok { st with cache := cache',
                        userJobs := uj1.set uid (some ((uj1 uid).getD [] ++ newJobs)),
                        nextJobId := nid' }

/-- `remind_next_prayer` from bot.py: re-read the user, return silently
when inactive, otherwise send the reminder (the `try`/`except` around
`send_message` swallows delivery failures; delivery itself succeeds in
this embedding). -/
def remind_next_prayer (st : BotState) (chat_id : Nat) (prayer_name : String) :
    Except PyErr BotState :=
  match get_user st.db chat_id with
  | none => .error .attributeError
  | some user =>
    if !user.active then .ok st
    else .ok { st with sent := st.sent ++ [(chat_id, ("It's time for ") ++ prayer_name ++ ("!"))] }

/-- `send_todays_times` from bot.py: serve the table, index every
kind-row at `today = now.day - 1` while formatting (an out-of-range day
raises `IndexError`), and send the joined list. -/
def send_todays_times (st : BotState) (chat_id : Nat) (now : Moment) (fetch : FetchResult) :
    Except PyErr BotState :=
  match get_month_times st.cache now fetch with
  | (.error e, _, _) => .error e
  | (.ok times, cache', _) =>
    let today := now.day - 1
    match (prayer_names.zip times).mapM (fun nt =>
        match nt.2.get? today with
        | none => Except.error PyErr.indexError
        | some t => Except.ok (("*") ++ nt.1 ++ ("*: ") ++ t)) with
    | .error e => .error e
    | .ok prayers =>
      .ok { st with cache := cache',
                    sent := st.sent ++
                      [(chat_id, ("Today's prayer times:\n") ++ String.intercalate ("\n") prayers)] }

/-- The `with_time` lambda of `send_next_prayer`:
`now.replace(day=day, hour=int(p_time[:2]), minute=int(p_time[3:]))`.
`int()` raises on a malformed slice and `replace` validates the new
field values against the calendar, both embedded as errors. -/
def with_time (now : Moment) (p_time : String) (day : Nat) : Except PyErr Moment :=
  match pyInt (pyTake p_time 2), pyInt (pyDrop p_time 3) with
  | some hour, some minute =>
    if 1 ≤ day ∧ day ≤ days_in_month now.year now.month ∧ hour ≤ 23 ∧ minute ≤ 59 then
      .ok { now with day := day, hour := hour, minute := minute }
    else .error .valueError
  | _, _ => .error .valueError

/-- One list comprehension of `send_next_prayer`:
`[with_time(time[day - 1], day) for time in times]` (the `today`
comprehension leaves `day` at its default `today = now.day`). -/
def buildDayTimes (now : Moment) (times : List (List String)) (day : Nat) :
    Except PyErr (List Moment) :=
  times.mapM fun row =>
    match row.get? (day - 1) with
    | none => .error .indexError
    | some p => with_time now p day

/-- Python `text.split(' ', 1)`: split at the first space only. -/
def splitOnce (s : String) : List String :=
  match pySplit s ' ' with
  | [] => [("")]
  | [x] => [x]
  | x :: rest => [x, String.intercalate (" ") rest]

/-- The observable outcome of `send_next_prayer`: which of its three
reply messages is sent, and with which prayer name and `datetime` (the
sent text is a pure function of these via `precisedelta`/`strftime`). -/
inductive NextPrayerReply where
  | unknownValue
  | notFound (requested : String)
  | nextAt (requested : String) (at_ : Moment)
deriving DecidableEq

/-- `send_next_prayer` from bot.py.  `text` is the incoming message
text (`update.effective_message.text`). -/
def send_next_prayer (st : BotState) (now : Moment) (text : String) (fetch : FetchResult) :
    Except PyErr (NextPrayerReply × BotState) :=
  match get_month_times st.cache now fetch with
  | (.error e, _, _) => .error e
  | (.ok times, cache', _) =>
    let st := { st with cache := cache' }
    match buildDayTimes now times now.day with
    | .error e => .error e
    | .ok todays =>
      let dim := days_in_month now.year now.month
      let tomorrow := now.day + 1
      match (if tomorrow < dim + 1 then (buildDayTimes now times tomorrow).map (todays ++ ·)
             else .ok todays) with
      | .error e => .error e
      | .ok prayer_times =>
        match splitOnce text with
        | [_, requested] =>
          if requested ∈ prayer_names then
            let prayer_idx := prayer_names.indexOf requested
            if prayer_idx + 1 < prayer_times.length then
              .ok (.nextAt requested ((prayer_times.get? (prayer_idx + 1)).getD now), st)
            else .ok (.notFound requested, st)
          else .ok (.unknownValue, st)
        | _ =>
          match prayer_times.find? (fun p => momentLtB now p) with
          | some pt =>
            .ok (.nextAt ((prayer_names.get? (prayer_times.indexOf pt % prayer_names.length)).getD (""))
                   pt, st)
          | none => .ok (.notFound ("prayer"), st)

/-- Lines 286-298 of `start` (bot.py): initialize the user's
`_user_jobs` entry if missing, create and record the `run_daily`
midnight job, run it once immediately (`job.run(dispatcher)` invokes
`register_todays_prayers` now), then send the welcome message. -/
def start_register (st : BotState) (new_id : Nat) (now : Moment) (fetch : FetchResult) :
    Except PyErr BotState :=
  let uj1 := if (st.userJobs new_id).isSome then st.userJobs
             else st.userJobs.set new_id (some [])
  let dailyJob : Job := ⟨st.nextJobId, new_id, .daily, (0, 0, 0, 0), true⟩
  let st1 := { st with userJobs := uj1.set new_id (some ((uj1 new_id).getD [] ++ [dailyJob])),
                       nextJobId := st.nextJobId + 1 }
  match register_todays_prayers st1 new_id now fetch with
  | .error e => .error e
  | .ok st2 =>
    .ok { st2 with sent := st2.sent ++
      [(new_id, ("I will send you a reminder everyday on the prayer times of that day.\n" ++
                 "Send /stop to stop reminding or /today to get just today's prayer times."))] }

/-- `start` from bot.py (the `/start` handler): read the user, cancel
all their jobs, then branch — unknown user: create as active and arm;
already-active user: reply "The bot is already activated." and return;
inactive user: mark active and arm.  Arming is `start_register`. -/
def start (st : BotState) (new_id : Nat) (now : Moment) (fetch : FetchResult) :
    Except PyErr BotState :=
  let user := get_user st.db new_id
  let st0 := { st with userJobs := cancel_user_jobs st.userJobs new_id }
  match user with
  | none =>
    start_register { st0 with db := add_user st0.db new_id } new_id now fetch
  | some u =>
    if u.active then
      .ok { st0 with sent := st0.sent ++ [(new_id, ("The bot is already activated."))] }
    else
      start_register { st0 with db := set_active st0.db new_id true } new_id now fetch

/-- A cache hit: with a cached table for the current month and year,
`get_month_times` skips the fetch and serves the cached list. -/
theorem get_month_times_cache_hit
    (st : CacheState) (now : Moment) (fetch : FetchResult) (d : List (List String))
    (hd : st.data = some d) (hm : st.month = some now.month) (hy : st.year = some now.year) :
    get_month_times st now fetch = (.ok d, st, false) := by
  unfold get_month_times
  rw [hd, hm, hy]
  simp

/-- C7: with a cached table for the current month and year,
`get_month_times` performs no fetch and returns the identical cached
content; a second call within the same month (whatever the fetch
collaborator would then do) returns the identical content again. -/
theorem get_month_times_idempotent_same_month
    (st : CacheState) (now : Moment) (fetch fetch' : FetchResult) (d : List (List String))
    (hd : st.data = some d) (hm : st.month = some now.month) (hy : st.year = some now.year) :
    get_month_times st now fetch = (.ok d, st, false) ∧
    get_month_times st now fetch' = (.ok d, st, false) :=
  ⟨get_month_times_cache_hit st now fetch d hd hm hy,
   get_month_times_cache_hit st now fetch' d hd hm hy⟩

/-- Closed instance of `get_month_times_idempotent_same_month`. -/
theorem get_month_times_idempotent_same_month_witness :
    get_month_times ⟨some [[("04:30")]], some 5, some 2024, none⟩ ⟨2024, 5, 1, 12, 0, 0, 0⟩
        (.failure ("down")) = (.ok [[("04:30")]], ⟨some [[("04:30")]], some 5, some 2024, none⟩, false) ∧
    get_month_times ⟨some [[("04:30")]], some 5, some 2024, none⟩ ⟨2024, 5, 1, 12, 0, 0, 0⟩
        (.rows []) = (.ok [[("04:30")]], ⟨some [[("04:30")]], some 5, some 2024, none⟩, false) :=
  get_month_times_idempotent_same_month _ _ _ _ _ rfl rfl rfl

/-- C3: when a refresh is due and the attempt fails (transport error,
no table, a raising row, or zero valid rows), `get_month_times` returns
any previously cached table unchanged — whatever its month and year —
and raises the no-cache message exactly when no prior table exists. -/
theorem get_month_times_fallback_policy
    (st : CacheState) (now : Moment) (fetch : FetchResult)
    (hneed : st.data = none ∨ st.month ≠ some now.month ∨ st.year ≠ some now.year)
    (hfail : ∃ e, refreshAttempt fetch = .error e) :
    (∀ d, st.data = some d → get_month_times st now fetch = (.ok d, st, true)) ∧
    (st.data = none →
      get_month_times st now fetch =
        (.error (.exception ("Unable to fetch prayer times and no cache available")), st, true)) := by
  obtain ⟨e, he⟩ := hfail
  unfold get_month_times
  rw [if_pos hneed, he]
  exact ⟨fun d hd => by rw [hd], fun hd => by rw [hd]⟩

/-- Closed instance of `get_month_times_fallback_policy`: a failing
fetch in month 5 served from a month-4 table, and the raising case from
an empty cache. -/
theorem get_month_times_fallback_policy_witness :
    get_month_times ⟨some [[("04:30")]], some 4, some 2024, none⟩ ⟨2024, 5, 1, 12, 0, 0, 0⟩
        (.failure ("down")) = (.ok [[("04:30")]], ⟨some [[("04:30")]], some 4, some 2024, none⟩, true) ∧
    get_month_times emptyCache ⟨2024, 5, 1, 12, 0, 0, 0⟩ (.failure ("down")) =
      (.error (.exception ("Unable to fetch prayer times and no cache available")), emptyCache, true) :=
  ⟨(get_month_times_fallback_policy ⟨some [[("04:30")]], some 4, some 2024, none⟩
      ⟨2024, 5, 1, 12, 0, 0, 0⟩ (.failure ("down")) (by simp) ⟨.exception ("down"), rfl⟩).1 _ rfl,
   (get_month_times_fallback_policy emptyCache ⟨2024, 5, 1, 12, 0, 0, 0⟩ (.failure ("down"))
      (by simp [emptyCache]) ⟨.exception ("down"), rfl⟩).2 rfl⟩

/-- C9: for a chat id with no user document, `DBHelper.get_user`
returns `None`, and both `remind_next_prayer` and
`register_todays_prayers` then raise `AttributeError` dereferencing
`user.active` instead of skipping silently. -/
theorem missing_user_raises_attribute_error
    (st : BotState) (uid : Nat) (name : String) (now : Moment) (fetch : FetchResult)
    (h : st.db uid = none) :
    get_user st.db uid = none ∧
    remind_next_prayer st uid name = .error .attributeError ∧
    register_todays_prayers st uid now fetch = .error .attributeError := by
  unfold remind_next_prayer register_todays_prayers get_user
  rw [h]
  exact ⟨rfl, rfl, rfl⟩

/-- Closed instance of `missing_user_raises_attribute_error` on an
empty user store. -/
theorem missing_user_raises_attribute_error_witness :
    get_user (fun _ => none) 7 = none ∧
    remind_next_prayer ⟨fun _ => none, emptyCache, fun _ => none, 0, []⟩ 7 ("Fajr") =
      .error .attributeError ∧
    register_todays_prayers ⟨fun _ => none, emptyCache, fun _ => none, 0, []⟩ 7
        ⟨2024, 5, 1, 12, 0, 0, 0⟩ (.failure ("down")) = .error .attributeError :=
  missing_user_raises_attribute_error ⟨fun _ => none, emptyCache, fun _ => none, 0, []⟩ 7
    ("Fajr") ⟨2024, 5, 1, 12, 0, 0, 0⟩ (.failure ("down")) rfl

/-- C10: when the cache serves a fallback table (stale month, failing
fetch) whose first kind-row is shorter than the current day of month,
both `register_todays_prayers` (for an active user) and
`send_todays_times` index the row at `now.day - 1` with no bounds check
and fail with `IndexError`. -/
theorem short_fallback_table_raises_index_error
    (st : BotState) (uid : Nat) (now : Moment) (msg : String)
    (r0 : List String) (rest : List (List String))
    (hdata : st.cache.data = some (r0 :: rest))
    (hstale : st.cache.month ≠ some now.month)
    (hactive : st.db uid = some true)
    (hshort : r0.length ≤ now.day - 1) :
    register_todays_prayers st uid now (.failure msg) = .error .indexError ∧
    send_todays_times st uid now (.failure msg) = .error .indexError := by
  have hserve : get_month_times st.cache now (.failure msg) = (.ok (r0 :: rest), st.cache, true) := by
    unfold get_month_times
    rw [if_pos (Or.inr (Or.inl hstale))]
    show (match st.cache.data with
      | some d => (Except.ok d, st.cache, true)
      | none => _) = _
    rw [hdata]
  have hnone : r0.get? (now.day - 1) = none := List.get?_eq_none.mpr hshort
  constructor
  · unfold register_todays_prayers get_user
    rw [hactive]
    show (match get_month_times st.cache now (.failure msg) with
      | (.error e, _, _) => Except.error e
      | (.ok prayer_times, cache', _) => _) = _
    rw [hserve]
    show (match registerLoop uid now.tod (now.day - 1) st.nextJobId
            (prayer_names.zip (r0 :: rest)) with
      | .error e => Except.error e
      | .ok (newJobs, nid') => _) = _
    have : prayer_names.zip (r0 :: rest) = (("Fajr"), r0) :: (prayer_names.tail.zip rest) := rfl
    rw [this]
    unfold registerLoop
    rw [hnone]
  · simp only [send_todays_times, hserve, List.zip_cons_cons, List.mapM_cons, hnone,
      prayer_names, bind, Except.bind]

/-- Closed instance of `short_fallback_table_raises_index_error`: a
one-day stale table consulted on day 31. -/
theorem short_fallback_table_raises_index_error_witness :
    register_todays_prayers
        ⟨(fun u => if u = 1 then some true else none),
         ⟨some [[("04:30")], [("06:00")], [("12:30")], [("15:30")], [("18:02")], [("20:00")]],
          some 4, some 2024, none⟩,
         (fun _ => none), 0, []⟩ 1 ⟨2024, 5, 31, 12, 0, 0, 0⟩ (.failure ("down")) =
      .error .indexError ∧
    send_todays_times
        ⟨(fun u => if u = 1 then some true else none),
         ⟨some [[("04:30")], [("06:00")], [("12:30")], [("15:30")], [("18:02")], [("20:00")]],
          some 4, some 2024, none⟩,
         (fun _ => none), 0, []⟩ 1 ⟨2024, 5, 31, 12, 0, 0, 0⟩ (.failure ("down")) =
      .error .indexError :=
  short_fallback_table_raises_index_error _ 1 ⟨2024, 5, 31, 12, 0, 0, 0⟩ ("down")
    [("04:30")] _ rfl (by decide) rfl (by decide)

/-- The loop of `cancel_user_jobs` attempts `schedule_removal()` on
every job of the snapshot, whether or not earlier removals raised. -/
theorem cancelLoopAux_attempts_all (l : List Job) :
    ∀ cur acc, (cancelLoopAux l cur acc).2 = acc ++ l := by
  induction l with
  | nil => intro cur acc; simp [cancelLoopAux]
  | cons j rest ih =>
    intro cur acc
    unfold cancelLoopAux
    by_cases h : j.cancelSucceeds <;> simp [h, ih]

/-- When every removal succeeds, the loop of `cancel_user_jobs` leaves
`cur.diff l` as the live list. -/
theorem cancelLoopAux_all_succeed (l : List Job) (h : ∀ j ∈ l, j.cancelSucceeds = true) :
    ∀ cur acc, (cancelLoopAux l cur acc).1 = cur.diff l := by
  induction l with
  | nil => intro cur acc; simp [cancelLoopAux]
  | cons j rest ih =>
    intro cur acc
    unfold cancelLoopAux
    rw [if_pos (h j (List.mem_cons_self j rest))]
    rw [ih (fun x hx => h x (List.mem_cons_of_mem j hx))]
    rw [List.diff_cons]

/-- A list's difference with itself is empty. -/
theorem list_diff_self (l : List Job) : l.diff l = [] := by
  induction l with
  | nil => rfl
  | cons a l ih =>
    rw [List.diff_cons, List.erase_cons_head]
    exact ih

/-- C6: for a user with any registered job list, if every removal
succeeds then `cancel_user_jobs` leaves the registry with no entry for
the user (zero jobs, entry deleted); and independently of which
removals fail, every job of the snapshot is attempted. -/
theorem cancel_user_jobs_empties_registry (m : UserJobs) (uid : Nat) (jl : List Job)
    (hm : m uid = some jl) :
    ((∀ j ∈ jl, j.cancelSucceeds = true) → (cancel_user_jobs m uid) uid = none) ∧
    (cancelLoopAux jl jl []).2 = jl := by
  constructor
  · intro hall
    simp only [cancel_user_jobs, hm, cancelLoopAux_all_succeed jl hall jl [], list_diff_self]
    simp [UserJobs.set]
  · simpa using cancelLoopAux_attempts_all jl jl []

/-- Closed instance of `cancel_user_jobs_empties_registry` with three
registered jobs. -/
theorem cancel_user_jobs_empties_registry_witness :
    (cancel_user_jobs
        (fun u => if u = 1 then
          some [⟨0, 1, .daily, (0, 0, 0, 0), true⟩,
                ⟨1, 1, .once ("Asr"), (15, 45, 0, 0), true⟩,
                ⟨2, 1, .once ("Isha"), (20, 0, 0, 0), true⟩] else none) 1) 1 = none ∧
    (cancelLoopAux
        [⟨0, 1, .daily, (0, 0, 0, 0), true⟩,
         ⟨1, 1, .once ("Asr"), (15, 45, 0, 0), true⟩,
         ⟨2, 1, .once ("Isha"), (20, 0, 0, 0), true⟩]
        [⟨0, 1, .daily, (0, 0, 0, 0), true⟩,
         ⟨1, 1, .once ("Asr"), (15, 45, 0, 0), true⟩,
         ⟨2, 1, .once ("Isha"), (20, 0, 0, 0), true⟩] []).2 =
      [⟨0, 1, .daily, (0, 0, 0, 0), true⟩,
       ⟨1, 1, .once ("Asr"), (15, 45, 0, 0), true⟩,
       ⟨2, 1, .once ("Isha"), (20, 0, 0, 0), true⟩] :=
  ⟨(cancel_user_jobs_empties_registry
      (fun u => if u = 1 then
        some [⟨0, 1, .daily, (0, 0, 0, 0), true⟩,
              ⟨1, 1, .once ("Asr"), (15, 45, 0, 0), true⟩,
              ⟨2, 1, .once ("Isha"), (20, 0, 0, 0), true⟩] else none) 1 _ rfl).1 (by decide),
   (cancel_user_jobs_empties_registry
      (fun u => if u = 1 then
        some [⟨0, 1, .daily, (0, 0, 0, 0), true⟩,
              ⟨1, 1, .once ("Asr"), (15, 45, 0, 0), true⟩,
              ⟨2, 1, .once ("Isha"), (20, 0, 0, 0), true⟩] else none) 1 _ rfl).2⟩

/-- C2 (code defect): a `/start` from an already-active user first
cancels all the user's jobs, then hits the `user.active` early return:
the handler replies "The bot is already activated." and registers
nothing, so the user ends with no jobs at all — in particular no live
daily recurrence job. -/
theorem start_on_active_user_leaves_no_jobs :
    (start ⟨(fun u => if u = 1 then some true else none), emptyCache,
            (fun u => if u = 1 then some [⟨99, 1, .daily, (0, 0, 0, 0), true⟩] else none),
            100, []⟩ 1 ⟨2024, 5, 1, 12, 0, 0, 0⟩ (.failure ("down"))).map
        (fun s => (s.userJobs 1, s.sent)) =
      .ok (none, [(1, ("The bot is already activated."))]) := by
  rfl

/-- The prayer name a one-shot job reminds about (empty for the daily
recurrence job). -/
def Job.onceName (j : Job) : String :=
  match j.kind with
  | .daily => ("")
  | .once n => n

/-- Specification-side description of the jobs `registerLoop` creates,
given the already-parsed `(name, time)` pairs: one job per pair whose
time is not strictly earlier than `nowTod`, numbered consecutively. -/
def futureJobsSpec (uid : Nat) (nowTod : Nat × Nat × Nat × Nat) (nid : Nat) :
    List (String × (Nat × Nat × Nat × Nat)) → List Job × Nat
  | [] => ([], nid)
  | (name, ts) :: rest =>
    if todLtB ts nowTod then futureJobsSpec uid nowTod nid rest
    else
      let p := futureJobsSpec uid nowTod (nid + 1) rest
      (⟨nid, uid, .once name, ts, true⟩ :: p.1, p.2)

/-- `registerLoop` refines `futureJobsSpec`: when every kind-row has a
parseable entry at `today`, the loop succeeds and creates exactly the
jobs the specification describes. -/
theorem registerLoop_eq_futureJobsSpec (uid : Nat) (nowTod : Nat × Nat × Nat × Nat)
    (today : Nat) (pairs : List (String × List String))
    (entries : List (Nat × Nat × Nat × Nat))
    (hrel : List.Forall₂ (fun (nt : String × List String) ts =>
        ∃ s, nt.2.get? today = some s ∧ parsePrayerTime s = .ok ts) pairs entries) :
    ∀ nid, registerLoop uid nowTod today nid pairs =
      .ok (futureJobsSpec uid nowTod nid ((pairs.map Prod.fst).zip entries)) := by
  induction hrel with
  | nil => intro nid; rfl
  | @cons nt ts pairs' entries' hR hrest ih =>
    intro nid
    obtain ⟨s, hget, hparse⟩ := hR
    obtain ⟨name, row⟩ := nt
    have hzip : ((((name, row) :: pairs').map Prod.fst).zip (ts :: entries')) =
        (name, ts) :: ((pairs'.map Prod.fst).zip entries') := rfl
    rw [hzip]
    simp only [registerLoop, hget, hparse, futureJobsSpec]
    by_cases hlt : todLtB ts nowTod
    · simp [hlt, ih nid]
    · simp [hlt, ih (nid + 1)]

/-- The jobs `futureJobsSpec` describes are exactly the input pairs
whose time is not strictly earlier than `nowTod`. -/
theorem futureJobsSpec_filter (uid : Nat) (nowTod : Nat × Nat × Nat × Nat)
    (l : List (String × (Nat × Nat × Nat × Nat))) :
    ∀ nid, ((futureJobsSpec uid nowTod nid l).1).map (fun j => (j.onceName, j.fireTod)) =
      l.filter (fun p => !(todLtB p.2 nowTod)) := by
  induction l with
  | nil => intro nid; rfl
  | cons p rest ih =>
    intro nid
    obtain ⟨name, ts⟩ := p
    simp only [futureJobsSpec, List.filter_cons]
    by_cases hlt : todLtB ts nowTod
    · simp [hlt, ih nid]
    · rw [if_neg hlt]
      simp only [List.map_cons, ih (nid + 1)]
      simp [Job.onceName, hlt]

/-- C4 (amended): for an active user with a current-month cached table
whose entries parse, `register_todays_prayers` appends one job for
exactly those of today's prayer kinds whose time is *not strictly
earlier* than `now` (so a prayer at exactly `now` is registered), and
no job for the strictly earlier ones. -/
theorem register_todays_prayers_exactly_not_past
    (st : BotState) (uid : Nat) (now : Moment) (fetch : FetchResult)
    (table : List (List String)) (oldJobs : List Job)
    (entries : List (Nat × Nat × Nat × Nat))
    (hactive : st.db uid = some true)
    (hjobs : st.userJobs uid = some oldJobs)
    (hdata : st.cache.data = some table)
    (hmon : st.cache.month = some now.month)
    (hyr : st.cache.year = some now.year)
    (hrel : List.Forall₂ (fun (nt : String × List String) ts =>
        ∃ s, nt.2.get? (now.day - 1) = some s ∧ parsePrayerTime s = .ok ts)
      (prayer_names.zip table) entries) :
    ∃ newJobs nid',
      register_todays_prayers st uid now fetch =
        .ok { st with userJobs := st.userJobs.set uid (some (oldJobs ++ newJobs)),
                      nextJobId := nid' } ∧
      newJobs.map (fun j => (j.onceName, j.fireTod)) =
        ((((prayer_names.zip table).map Prod.fst).zip entries).filter
          (fun p => !(todLtB p.2 now.tod))) := by
  refine ⟨(futureJobsSpec uid now.tod st.nextJobId
            (((prayer_names.zip table).map Prod.fst).zip entries)).1,
          (futureJobsSpec uid now.tod st.nextJobId
            (((prayer_names.zip table).map Prod.fst).zip entries)).2,
          ?_, futureJobsSpec_filter uid now.tod _ st.nextJobId⟩
  have hserve := get_month_times_cache_hit st.cache now fetch table hdata hmon hyr
  have hloop := registerLoop_eq_futureJobsSpec uid now.tod (now.day - 1)
    (prayer_names.zip table) entries hrel st.nextJobId
  unfold register_todays_prayers get_user
  rw [hactive]
  simp only [Bool.not_true, Bool.false_eq_true, if_false, hjobs, Option.isSome_some, if_true,
    hserve, hloop, Option.getD_some]

/-- C4 as literally stated fails at the time boundary: at exactly
13:00:00.000000, the Asr entry "13:00" is *not strictly later* than
`now`, yet `register_todays_prayers` registers a job for it (the code
skips only strictly earlier prayers). -/
theorem register_todays_prayers_equal_time_counterexample :
    (register_todays_prayers
        ⟨(fun u => if u = 1 then some true else none),
         ⟨some [[("04:00")], [("06:00")], [("12:30")], [("13:00")], [("19:00")], [("21:00")]],
          some 5, some 2024, none⟩,
         (fun u => if u = 1 then some [] else none), 0, []⟩
        1 ⟨2024, 5, 1, 13, 0, 0, 0⟩ (.failure ("down"))).map
      (fun s => ((s.userJobs 1).getD []).map (fun j => (j.onceName, j.fireTod))) =
      .ok [(("Asr"), (13, 0, 0, 0)), (("Maghrib"), (19, 0, 0, 0)), (("Isha"), (21, 0, 0, 0))] ∧
    todLtB (⟨2024, 5, 1, 13, 0, 0, 0⟩ : Moment).tod (13, 0, 0, 0) = false := by
  constructor
  · rfl
  · rfl

/-- Closed instance of `register_todays_prayers_exactly_not_past`: at
13:00 with Fajr, Sunrise and Dhuhr already past, jobs are created for
exactly Asr, Maghrib and Isha. -/
theorem register_todays_prayers_exactly_not_past_witness :
    ∃ newJobs nid',
      register_todays_prayers
          ⟨(fun u => if u = 1 then some true else none),
           ⟨some [[("04:00")], [("06:00")], [("12:30")], [("15:45")], [("19:00")], [("21:00")]],
            some 5, some 2024, none⟩,
           (fun u => if u = 1 then some [] else none), 0, []⟩
          1 ⟨2024, 5, 1, 13, 0, 0, 0⟩ (.failure ("down")) =
        .ok { db := (fun u => if u = 1 then some true else none),
              cache := ⟨some [[("04:00")], [("06:00")], [("12:30")], [("15:45")], [("19:00")],
                              [("21:00")]], some 5, some 2024, none⟩,
              userJobs := UserJobs.set (fun u => if u = 1 then some [] else none) 1
                            (some ([] ++ newJobs)),
              nextJobId := nid', sent := [] } ∧
      newJobs.map (fun j => (j.onceName, j.fireTod)) =
        ((((prayer_names.zip [[("04:00")], [("06:00")], [("12:30")], [("15:45")], [("19:00")],
            [("21:00")]]).map Prod.fst).zip
          [(4, 0, 0, 0), (6, 0, 0, 0), (12, 30, 0, 0), (15, 45, 0, 0), (19, 0, 0, 0),
           (21, 0, 0, 0)]).filter
          (fun p => !(todLtB p.2 (⟨2024, 5, 1, 13, 0, 0, 0⟩ : Moment).tod))) :=
  register_todays_prayers_exactly_not_past
    ⟨(fun u => if u = 1 then some true else none),
     ⟨some [[("04:00")], [("06:00")], [("12:30")], [("15:45")], [("19:00")], [("21:00")]],
      some 5, some 2024, none⟩,
     (fun u => if u = 1 then some [] else none), 0, []⟩
    1 ⟨2024, 5, 1, 13, 0, 0, 0⟩ (.failure ("down"))
    [[("04:00")], [("06:00")], [("12:30")], [("15:45")], [("19:00")], [("21:00")]] []
    [(4, 0, 0, 0), (6, 0, 0, 0), (12, 30, 0, 0), (15, 45, 0, 0), (19, 0, 0, 0), (21, 0, 0, 0)]
    rfl rfl rfl rfl rfl
    (by refine List.Forall₂.cons ⟨("04:00"), rfl, rfl⟩ ?_
        refine List.Forall₂.cons ⟨("06:00"), rfl, rfl⟩ ?_
        refine List.Forall₂.cons ⟨("12:30"), rfl, rfl⟩ ?_
        refine List.Forall₂.cons ⟨("15:45"), rfl, rfl⟩ ?_
        refine List.Forall₂.cons ⟨("19:00"), rfl, rfl⟩ ?_
        exact List.Forall₂.cons ⟨("21:00"), rfl, rfl⟩ List.Forall₂.nil)

/-- C5 as stated fails: one malformed time string does not merely
discard its own row — the `ValueError` from `shift_time` aborts the
whole refresh, so with an empty cache the valid row is *not* committed
and `get_month_times` raises even though one valid row exists. -/
theorem refresh_malformed_row_aborts_counterexample :
    processRows
        [[("1"), ("x"), ("04:32"), ("06:00"), ("12:30"), ("15:30"), ("18:00"), ("20:00")],
         [("2"), ("x"), ("xx:30"), ("06:00"), ("12:30"), ("15:30"), ("18:00"), ("20:00")]] =
      .error .valueError ∧
    get_month_times emptyCache ⟨2024, 5, 1, 12, 0, 0, 0⟩
        (.rows [[("h1"), ("h2"), ("h3"), ("h4"), ("h5"), ("h6"), ("h7"), ("h8")],
                [("1"), ("x"), ("04:32"), ("06:00"), ("12:30"), ("15:30"), ("18:00"), ("20:00")],
                [("2"), ("x"), ("xx:30"), ("06:00"), ("12:30"), ("15:30"), ("18:00"), ("20:00")]]) =
      (.error (.exception ("Unable to fetch prayer times and no cache available")),
       emptyCache, true) := by
  exact ⟨rfl, rfl⟩

/-- C5 (amended): during a refresh, a row with fewer than 8 cells is
individually discarded while the remaining rows are still processed and
committed; a malformed time string in a row that reaches the shifting
step aborts the entire refresh with `ValueError` (handled by the
fallback policy as a fetch failure); and the refresh raises the
no-valid-rows failure exactly from zero valid rows. -/
theorem refresh_row_error_handling :
    (∀ (row : List String) rest, row.length < 8 →
      processRows (row :: rest) = processRows rest) ∧
    (∀ (row : List String) rest, 8 ≤ row.length → shift_time (row.getD 2 ("")) (-2) = none →
      processRows (row :: rest) = .error .valueError) ∧
    (∀ trs, processRows (trs.drop 1) = .ok [] →
      refreshAttempt (.rows trs) = .error (.exception ("No valid prayer time rows found"))) ∧
    (∀ (st : CacheState) (now : Moment) trs prayers,
      (st.data = none ∨ st.month ≠ some now.month ∨ st.year ≠ some now.year) →
      processRows (trs.drop 1) = .ok prayers → prayers ≠ [] →
      get_month_times st now (.rows trs) =
        (.ok (transposeT prayers),
         ⟨some (transposeT prayers), some now.month, some now.year, some now⟩, true)) := by
  refine ⟨?_, ?_, ?_, ?_⟩
  · intro row rest h
    conv_lhs => rw [processRows]
    rw [if_pos h]
  · intro row rest hlen hshift
    have hgetD : ((row.drop 2).take 6).getD 0 ("") = row.getD 2 ("") := by
      simp only [List.getD, List.get?_eq_getElem?]
      rw [List.getElem?_take_of_lt (by omega : (0 : Nat) < 6), List.getElem?_drop]
    have hlen6 : ((row.drop 2).take 6).length = 6 := by
      rw [List.length_take, List.length_drop]; omega
    conv_lhs => rw [processRows]
    rw [if_neg (by omega)]
    simp only [hlen6, hgetD, hshift]
    simp
  · intro trs hzero
    simp only [refreshAttempt, hzero]
    rfl
  · intro st now trs prayers hneed hrows hne
    have hlen : ¬(prayers.length = 0) := by simpa using hne
    unfold get_month_times
    rw [if_pos hneed]
    simp only [refreshAttempt, hrows, if_neg hlen]

/-- Closed instance of `refresh_row_error_handling`: a 3-cell row is
skipped and the good row committed (with the Fajr/Maghrib shifts
applied); a malformed row aborts; an all-short table yields the
no-valid-rows failure; a good table is committed transposed. -/
theorem refresh_row_error_handling_witness :
    processRows
        [[("1"), ("2"), ("3")],
         [("1"), ("x"), ("04:32"), ("06:00"), ("12:30"), ("15:30"), ("18:00"), ("20:00")]] =
      processRows
        [[("1"), ("x"), ("04:32"), ("06:00"), ("12:30"), ("15:30"), ("18:00"), ("20:00")]] ∧
    processRows
        [[("2"), ("x"), ("xx:30"), ("06:00"), ("12:30"), ("15:30"), ("18:00"), ("20:00")]] =
      .error .valueError ∧
    refreshAttempt (.rows [[("h")], [("1"), ("2"), ("3")]]) =
      .error (.exception ("No valid prayer time rows found")) ∧
    get_month_times emptyCache ⟨2024, 5, 1, 12, 0, 0, 0⟩
        (.rows [[("h")],
                [("1"), ("x"), ("04:32"), ("06:00"), ("12:30"), ("15:30"), ("18:00"), ("20:00")]]) =
      (.ok (transposeT [[("04:30"), ("06:00"), ("12:30"), ("15:30"), ("18:02"), ("20:00")]]),
       ⟨some (transposeT [[("04:30"), ("06:00"), ("12:30"), ("15:30"), ("18:02"), ("20:00")]]),
        some 5, some 2024, some ⟨2024, 5, 1, 12, 0, 0, 0⟩⟩, true) :=
  ⟨refresh_row_error_handling.1 [("1"), ("2"), ("3")] _ (by decide),
   refresh_row_error_handling.2.1
     [("2"), ("x"), ("xx:30"), ("06:00"), ("12:30"), ("15:30"), ("18:00"), ("20:00")] []
     (by decide) rfl,
   refresh_row_error_handling.2.2.1 [[("h")], [("1"), ("2"), ("3")]] rfl,
   refresh_row_error_handling.2.2.2 emptyCache ⟨2024, 5, 1, 12, 0, 0, 0⟩
     [[("h")], [("1"), ("x"), ("04:32"), ("06:00"), ("12:30"), ("15:30"), ("18:00"), ("20:00")]]
     [[("04:30"), ("06:00"), ("12:30"), ("15:30"), ("18:02"), ("20:00")]]
     (by simp [emptyCache]) rfl (by decide)⟩

/-- C1 (amended): for a requested kind, `send_next_prayer` replies with
the entry of the built today-then-tomorrow sequence at position
`(index of the kind in the six-kind order) + 1` — the same-day entry of
the *following* kind, not the next instance of the requested kind — and
replies not-found exactly when the sequence has no entry there. -/
theorem send_next_prayer_requested_kind_index
    (st : BotState) (now : Moment) (text : String) (fetch : FetchResult)
    (times : List (List String)) (cache' : CacheState) (b : Bool)
    (td tm : List Moment) (cmd requested : String)
    (hserve : get_month_times st.cache now fetch = (.ok times, cache', b))
    (htoday : buildDayTimes now times now.day = .ok td)
    (htmr : now.day + 1 < days_in_month now.year now.month + 1)
    (htmrw : buildDayTimes now times (now.day + 1) = .ok tm)
    (hcmd : splitOnce text = [cmd, requested])
    (hmem : requested ∈ prayer_names) :
    (∀ t, (td ++ tm).get? (prayer_names.indexOf requested + 1) = some t →
      send_next_prayer st now text fetch =
        .ok (.nextAt requested t, { st with cache := cache' })) ∧
    ((td ++ tm).get? (prayer_names.indexOf requested + 1) = none →
      send_next_prayer st now text fetch =
        .ok (.notFound requested, { st with cache := cache' })) := by
  have hbody : send_next_prayer st now text fetch =
      (if prayer_names.indexOf requested + 1 < (td ++ tm).length then
        .ok (.nextAt requested (((td ++ tm).get? (prayer_names.indexOf requested + 1)).getD now),
             { st with cache := cache' })
      else .ok (.notFound requested, { st with cache := cache' })) := by
    unfold send_next_prayer
    rw [hserve]
    simp only [htoday, if_pos htmr, htmrw, Except.map, hcmd, hmem, if_true]
  constructor
  · intro t ht
    obtain ⟨hlt, -⟩ := List.get?_eq_some.mp ht
    rw [hbody, if_pos hlt, ht]
    rfl
  · intro ht
    have hge := List.get?_eq_none.mp ht
    rw [hbody, if_neg (by omega)]

/-- C1 as stated fails: on May 1 at 12:35 with tomorrow's data present,
`/next Dhuhr` replies with *today's Asr* time (16:00, the entry right
after Dhuhr's position in the six-kind order), not tomorrow's Dhuhr
time (12:32 on May 2), although tomorrow's data exists. -/
theorem send_next_prayer_dhuhr_counterexample :
    (send_next_prayer
        ⟨(fun u => if u = 1 then some true else none),
         ⟨some [[("04:00"), ("04:01")], [("06:00"), ("06:01")], [("12:30"), ("12:32")],
                [("16:00"), ("16:01")], [("19:00"), ("19:01")], [("21:00"), ("21:01")]],
          some 5, some 2024, none⟩,
         (fun _ => none), 0, []⟩
        ⟨2024, 5, 1, 12, 35, 0, 0⟩ ("/next Dhuhr") (.failure ("down"))).map Prod.fst =
      .ok (.nextAt ("Dhuhr") ⟨2024, 5, 1, 16, 0, 0, 0⟩) ∧
    with_time ⟨2024, 5, 1, 12, 35, 0, 0⟩ ("12:32") 2 = .ok ⟨2024, 5, 2, 12, 32, 0, 0⟩ ∧
    (⟨2024, 5, 1, 16, 0, 0, 0⟩ : Moment) ≠ ⟨2024, 5, 2, 12, 32, 0, 0⟩ := by
  refine ⟨rfl, rfl, ?_⟩
  decide

/-- Closed instance of `send_next_prayer_requested_kind_index` on the
scenario of `send_next_prayer_dhuhr_counterexample`. -/
theorem send_next_prayer_requested_kind_index_witness :
    send_next_prayer
        ⟨(fun u => if u = 1 then some true else none),
         ⟨some [[("04:00"), ("04:01")], [("06:00"), ("06:01")], [("12:30"), ("12:32")],
                [("16:00"), ("16:01")], [("19:00"), ("19:01")], [("21:00"), ("21:01")]],
          some 5, some 2024, none⟩,
         (fun _ => none), 0, []⟩
        ⟨2024, 5, 1, 12, 35, 0, 0⟩ ("/next Dhuhr") (.failure ("down")) =
      .ok (.nextAt ("Dhuhr") ⟨2024, 5, 1, 16, 0, 0, 0⟩,
           { db := (fun u => if u = 1 then some true else none),
             cache := ⟨some [[("04:00"), ("04:01")], [("06:00"), ("06:01")],
                             [("12:30"), ("12:32")], [("16:00"), ("16:01")],
                             [("19:00"), ("19:01")], [("21:00"), ("21:01")]],
                       some 5, some 2024, none⟩,
             userJobs := (fun _ => none), nextJobId := 0, sent := [] }) :=
  (send_next_prayer_requested_kind_index
    ⟨(fun u => if u = 1 then some true else none),
     ⟨some [[("04:00"), ("04:01")], [("06:00"), ("06:01")], [("12:30"), ("12:32")],
            [("16:00"), ("16:01")], [("19:00"), ("19:01")], [("21:00"), ("21:01")]],
      some 5, some 2024, none⟩,
     (fun _ => none), 0, []⟩
    ⟨2024, 5, 1, 12, 35, 0, 0⟩ ("/next Dhuhr") (.failure ("down"))
    [[("04:00"), ("04:01")], [("06:00"), ("06:01")], [("12:30"), ("12:32")],
     [("16:00"), ("16:01")], [("19:00"), ("19:01")], [("21:00"), ("21:01")]]
    ⟨some [[("04:00"), ("04:01")], [("06:00"), ("06:01")], [("12:30"), ("12:32")],
           [("16:00"), ("16:01")], [("19:00"), ("19:01")], [("21:00"), ("21:01")]],
     some 5, some 2024, none⟩ false
    [⟨2024, 5, 1, 4, 0, 0, 0⟩, ⟨2024, 5, 1, 6, 0, 0, 0⟩, ⟨2024, 5, 1, 12, 30, 0, 0⟩,
     ⟨2024, 5, 1, 16, 0, 0, 0⟩, ⟨2024, 5, 1, 19, 0, 0, 0⟩, ⟨2024, 5, 1, 21, 0, 0, 0⟩]
    [⟨2024, 5, 2, 4, 1, 0, 0⟩, ⟨2024, 5, 2, 6, 1, 0, 0⟩, ⟨2024, 5, 2, 12, 32, 0, 0⟩,
     ⟨2024, 5, 2, 16, 1, 0, 0⟩, ⟨2024, 5, 2, 19, 1, 0, 0⟩, ⟨2024, 5, 2, 21, 1, 0, 0⟩]
    ("/next") ("Dhuhr") rfl rfl (by decide) rfl rfl (by decide)).1
    ⟨2024, 5, 1, 16, 0, 0, 0⟩ rfl

/-- Splitting a canonical `HH:MM` string on `':'` recovers its two
fields (checked over all hour/minute values up to 59). -/
theorem pySplit_fmt2_colon (a b : Nat) (ha : a < 60) (hb : b < 60) :
    pySplit (fmt2 a ++ (":") ++ fmt2 b) ':' = [fmt2 a, fmt2 b] := by
  have H : ∀ x : Fin 60, ∀ y : Fin 60,
      pySplit (fmt2 x.val ++ (":") ++ fmt2 y.val) ':' = [fmt2 x.val, fmt2 y.val] := by decide
  exact H ⟨a, ha⟩ ⟨b, hb⟩

/-- `int()` inverts the two-digit format (checked up to 59). -/
theorem pyInt_fmt2 (n : Nat) (hn : n < 60) : pyInt (fmt2 n) = some n := by
  have H : ∀ x : Fin 60, pyInt (fmt2 x.val) = some x.val := by decide
  exact H ⟨n, hn⟩

/-- Evaluation of `shift_time` on a canonical in-range `HH:MM` string:
it returns the canonical string of the shifted minute-of-day. -/
theorem shift_time_canonical_eval (h m : Nat) (d : Int) (hh : h < 24) (hm : m < 60)
    (hlo : 0 ≤ pyDatetimeBase + ((h * 60 + m : Nat) : Int) + d)
    (hhi : pyDatetimeBase + ((h * 60 + m : Nat) : Int) + d ≤ pyDatetimeMax) :
    shift_time (fmt2 h ++ (":") ++ fmt2 m) d =
      some (fmt2 ((((pyDatetimeBase + ((h * 60 + m : Nat) : Int) + d).toNat) % 1440) / 60) ++
            (":") ++
            fmt2 ((((pyDatetimeBase + ((h * 60 + m : Nat) : Int) + d).toNat) % 1440) % 60)) := by
  simp only [shift_time, pySplit_fmt2_colon h m (by omega) hm, pyInt_fmt2 h (by omega),
    pyInt_fmt2 m hm]
  rw [if_pos (show h ≤ 23 ∧ m ≤ 59 from ⟨by omega, by omega⟩)]
  rw [if_pos ⟨hlo, hhi⟩]

/-- C8: shifting a well-formed canonical `HH:MM` string by any
whole-minute offset (small enough not to overflow Python's `datetime`
range: up to a billion minutes either way) and then by its negation
returns the original string, and shifting wraps within a single day:
`shift_time("00:01", -2) = "23:59"`. -/
theorem shift_time_roundtrip_and_wrap :
    (∀ (h m : Nat) (d : Int), h < 24 → m < 60 → d.natAbs ≤ 1000000000 →
      (shift_time (fmt2 h ++ (":") ++ fmt2 m) d).bind (fun s => shift_time s (-d)) =
        some (fmt2 h ++ (":") ++ fmt2 m)) ∧
    shift_time ("00:01") (-2) = some ("23:59") := by
  constructor
  · intro h m d hh hm hd
    have hB : pyDatetimeBase = (1051371360 : Int) := rfl
    have hM : pyDatetimeMax = (5258964959 : Int) := rfl
    rw [shift_time_canonical_eval h m d hh hm (by rw [hB]; omega) (by rw [hB, hM]; omega)]
    rw [Option.some_bind]
    set t1 := (((pyDatetimeBase + ((h * 60 + m : Nat) : Int) + d).toNat) % 1440) with ht1
    have ht1lt : t1 < 1440 := Nat.mod_lt _ (by norm_num)
    rw [shift_time_canonical_eval (t1 / 60) (t1 % 60) (-d) (by omega) (by omega)
      (by rw [hB]; omega) (by rw [hB, hM]; omega)]
    have hkey : (((pyDatetimeBase + ((t1 / 60 * 60 + t1 % 60 : Nat) : Int) + -d).toNat) % 1440) =
        h * 60 + m := by
      rw [hB] at ht1 ⊢
      omega
    rw [hkey]
    rw [show (h * 60 + m) / 60 = h from by omega, show (h * 60 + m) % 60 = m from by omega]
  · rfl

/-- Closed instance of `shift_time_roundtrip_and_wrap`: shifting
"09:00" forward two minutes and back returns "09:00". -/
theorem shift_time_roundtrip_and_wrap_witness :
    (shift_time (fmt2 9 ++ (":") ++ fmt2 0) 2).bind (fun s => shift_time s (-2)) =
      some (fmt2 9 ++ (":") ++ fmt2 0) ∧
    fmt2 9 ++ (":") ++ fmt2 0 = ("09:00") :=
  ⟨shift_time_roundtrip_and_wrap.1 9 0 2 (by decide) (by decide) (by decide), by decide⟩
